import Mathlib

/-!
Shallow embedding of the sora2api credential-pool core:
`src/services/token_manager.py` (TokenManager) and
`src/services/load_balancer.py` (LoadBalancer).

External collaborators absent from the sources (the `Database` persistent
store, the `Token` record model, the `TokenLock` exclusivity lock and the
admin configuration) are modelled from the specification's interface
contracts; every definition taken from a Python function keeps its name.

Time is modelled as an integer timestamp (seconds); `datetime.now()`
becomes an explicit `now` argument.  `random.choice(xs)` is modelled by an
explicit index `pick`, the chosen element being `xs[pick % len(xs)]`, so
"possible results" of a selection are exactly the members of the candidate
list.  Network enrichment calls (`get_user_info`, `get_subscription_info`,
`get_sora2_invite_code`) and JWT decoding are I/O performed outside the
pool state; their outcomes enter the embedding as `Option`-valued
arguments (`none` = the call raised).
-/

namespace Sora2api

/-- Credential record (`Token` of `core/models.py`, joined with its
`token_stats` row).  Modelled from the spec: §3 data model plus the fields
constructed and mutated in `token_manager.py`. -/
structure Token where
  id : Nat
  token : String
  email : String := ""
  name : String := ""
  st : Option String := none
  rt : Option String := none
  remark : Option String := none
  expiry_time : Option Int := none
  is_active : Bool := true
  plan_type : Option String := none
  plan_title : Option String := none
  subscription_end : Option Int := none
  sora2_supported : Option Bool := none
  sora2_invite_code : Option String := none
  sora2_redeemed_count : Nat := 0
  sora2_total_count : Nat := 0
  error_count : Nat := 0
  image_count : Nat := 0
  video_count : Nat := 0
  use_count : Nat := 0
  cooled_until : Option Int := none
  deriving DecidableEq, Repr

/-- Row returned by `db.get_token_stats` (the counters of a credential). -/
structure TokenStats where
  error_count : Nat
  image_count : Nat
  video_count : Nat
  deriving DecidableEq, Repr

/-- Modelled from the spec: `getAdminConfig() -> {errorBanThreshold,
videoCooldownThreshold, cooldownDuration, lockTimeout}` (§6). -/
structure AdminConfig where
  error_ban_threshold : Nat
  video_cooldown_threshold : Nat
  cooldown_duration : Int
  deriving DecidableEq, Repr

/-- Modelled from the spec: the PersistentStore (`core/database.py`,
absent from the sources) — a list of credential records, a fresh-id
counter and the mutable admin configuration. -/
structure Database where
  tokens : List Token
  next_id : Nat
  admin : AdminConfig
  deriving DecidableEq, Repr

/-- Modelled from the spec: `get(id)` — first stored record with this id. -/
def Database.get_token (db : Database) (token_id : Nat) : Option Token :=
  db.tokens.find? (fun t => t.id == token_id)

/-- Modelled from the spec: lookup of a credential by its secret value,
used by `add_token`'s duplicate check (§7 Conflict). -/
def Database.get_token_by_value (db : Database) (v : String) : Option Token :=
  db.tokens.find? (fun t => t.token == v)

/-- Update the record with the given id in place, leaving every other
record unchanged.  Shared shape of all the store's per-credential
mutators. -/
def Database.modify_token (db : Database) (token_id : Nat) (f : Token → Token) : Database :=
  { db with tokens := db.tokens.map (fun t => if t.id == token_id then f t else t) }

/-- Modelled from the spec: `setStatus(id, bool)`. -/
def Database.update_token_status (db : Database) (token_id : Nat) (b : Bool) : Database :=
  db.modify_token token_id (fun t => { t with is_active := b })

/-- Modelled from the spec: `incrementError(id)`. -/
def Database.increment_error_count (db : Database) (token_id : Nat) : Database :=
  db.modify_token token_id (fun t => { t with error_count := t.error_count + 1 })

/-- Modelled from the spec: `resetError(id)`. -/
def Database.reset_error_count (db : Database) (token_id : Nat) : Database :=
  db.modify_token token_id (fun t => { t with error_count := 0 })

/-- Modelled from the spec: `incrementUsage(id, video)`. -/
def Database.increment_video_count (db : Database) (token_id : Nat) : Database :=
  db.modify_token token_id (fun t => { t with video_count := t.video_count + 1 })

/-- Modelled from the spec: `incrementUsage(id, image)`. -/
def Database.increment_image_count (db : Database) (token_id : Nat) : Database :=
  db.modify_token token_id (fun t => { t with image_count := t.image_count + 1 })

/-- Modelled from the spec: the per-call usage bump done by
`db.update_token_usage` (overall use counter). -/
def Database.update_token_usage (db : Database) (token_id : Nat) : Database :=
  db.modify_token token_id (fun t => { t with use_count := t.use_count + 1 })

/-- Modelled from the spec: `setCooldown(id, until)`. -/
def Database.update_token_cooldown (db : Database) (token_id : Nat) (u : Int) : Database :=
  db.modify_token token_id (fun t => { t with cooled_until := some u })

/-- Modelled from the spec: `getStats(id)` — the counters of the record,
`none` when the id is absent. -/
def Database.get_token_stats (db : Database) (token_id : Nat) : Option TokenStats :=
  (db.get_token token_id).map
    (fun t => { error_count := t.error_count, image_count := t.image_count,
                video_count := t.video_count })

/-- Modelled from the spec: `getAdminConfig()`, fetched fresh on each
check (§4.2). -/
def Database.get_admin_config (db : Database) : AdminConfig :=
  db.admin

/-- Selectability predicate of §3: `status == Active` and (`cooled_until`
absent or `cooled_until <= now`).  This is the filter of the store's
`get_active_tokens` ("Get all active tokens (not cooled down)"). -/
def Token.selectable (t : Token) (now : Int) : Bool :=
  t.is_active &&
    (match t.cooled_until with
     | none => true
     | some c => decide (c ≤ now))

/-- Modelled from the spec: `db.get_active_tokens()` — all records with
status Active whose cooldown, if any, has passed. -/
def Database.get_active_tokens (db : Database) (now : Int) : List Token :=
  db.tokens.filter (fun t => t.selectable now)

/-- Modelled from the spec: `add(record) -> id` — append the record under
a fresh id and return the id. -/
def Database.add_token_record (db : Database) (t : Token) : Nat × Database :=
  let token_id := db.next_id
  (token_id,
   { db with tokens := db.tokens ++ [{ t with id := token_id }],
             next_id := db.next_id + 1 })

/-- Modelled from the spec: `update(id, fields)` — overwrite the fields
supplied (a `some` argument), keep the others. -/
def Database.update_token (db : Database) (token_id : Nat)
    (tok st rt remark : Option String) (expiry_time : Option Int)
    (plan_type plan_title : Option String) (subscription_end : Option Int) :
    Database :=
  db.modify_token token_id (fun t =>
    { t with
      token := tok.getD t.token
      st := match st with | some s => some s | none => t.st
      rt := match rt with | some s => some s | none => t.rt
      remark := match remark with | some s => some s | none => t.remark
      expiry_time := match expiry_time with | some e => some e | none => t.expiry_time
      plan_type := match plan_type with | some s => some s | none => t.plan_type
      plan_title := match plan_title with | some s => some s | none => t.plan_title
      subscription_end :=
        match subscription_end with | some e => some e | none => t.subscription_end })

/-- Modelled from the spec: the `TokenLock` exclusivity lock
(`services/token_lock.py`, absent from the sources): one record per
credential id holding `acquired_at`, held while `now - acquired_at <
lock_timeout` (§3 LockRecord, §4.3). -/
structure TokenLock where
  lock_timeout : Int
  locks : List (Nat × Int)
  deriving DecidableEq, Repr

/-- Modelled from the spec: `isLocked` — a record exists and has not
exceeded its timeout. -/
def TokenLock.is_locked (tl : TokenLock) (now : Int) (token_id : Nat) : Bool :=
  match tl.locks.find? (fun p => p.1 == token_id) with
  | some p => decide (now - p.2 < tl.lock_timeout)
  | none => false

/-- `LoadBalancer.select_token` (load_balancer.py:17-46): take the active
tokens; if none, return `none`; for image generation filter out locked
tokens and return `none` when the filtered list is empty; otherwise pick
one at random (`random.choice`, modelled by the index `pick`). -/
def LoadBalancer.select_token (db : Database) (tl : TokenLock) (now : Int)
    (for_image_generation : Bool) (pick : Nat) : Option Token :=
  let active_tokens := db.get_active_tokens now
  if active_tokens.isEmpty then
    none
  else if for_image_generation then
    let available_tokens := active_tokens.filter (fun t => ! tl.is_locked now t.id)
    if available_tokens.isEmpty then
      none
    else
      available_tokens.get? (pick % available_tokens.length)
  else
    active_tokens.get? (pick % active_tokens.length)

namespace TokenManager

/-- `TokenManager.record_usage` (token_manager.py:552-559). -/
def record_usage (db : Database) (token_id : Nat) (is_video : Bool) : Database :=
  let db1 := db.update_token_usage token_id
  if is_video then
    db1.increment_video_count token_id
  else
    db1.increment_image_count token_id

/-- `TokenManager.record_error` (token_manager.py:561-570): increment the
error count, then re-read the stats and the admin config and disable the
token when the threshold is reached. -/
def record_error (db : Database) (token_id : Nat) : Database :=
  let db1 := db.increment_error_count token_id
  match db1.get_token_stats token_id with
  | some stats =>
      if stats.error_count ≥ db1.get_admin_config.error_ban_threshold then
        db1.update_token_status token_id false
      else
        db1
  | none => db1

/-- `TokenManager.record_success` (token_manager.py:572-574). -/
def record_success (db : Database) (token_id : Nat) : Database :=
  db.reset_error_count token_id

/-- `TokenManager.enable_token` (token_manager.py:499-503). -/
def enable_token (db : Database) (token_id : Nat) : Database :=
  (db.update_token_status token_id true).reset_error_count token_id

/-- `TokenManager.disable_token` (token_manager.py:505-507). -/
def disable_token (db : Database) (token_id : Nat) : Database :=
  db.update_token_status token_id false

/-- `TokenManager.check_and_apply_cooldown` (token_manager.py:576-584):
read the stats and config fresh; when `video_count` has reached the
threshold, set `cooled_until = now + 12 hours` (the duration is the
hard-coded `timedelta(hours=12)`, in seconds `43200`). -/
def check_and_apply_cooldown (db : Database) (token_id : Nat) (now : Int) : Database :=
  match db.get_token_stats token_id with
  | some stats =>
      if stats.video_count ≥ db.get_admin_config.video_cooldown_threshold then
        db.update_token_cooldown token_id (now + 12 * 3600)
      else
        db
  | none => db

/-- Claims of the bearer token relevant to admission: the `exp` timestamp
and the email under the `https://api.openai.com/profile` key
(token_manager.py:336-345).  Absent keys are `none`. -/
structure JwtClaims where
  exp : Option Int := none
  profile_email : Option String := none
  deriving DecidableEq, Repr

/-- Result of `get_user_info` when the call succeeds; each field models
`dict.get` on the response. -/
structure UserInfo where
  email : Option String := none
  name : Option String := none
  deriving DecidableEq, Repr

/-- Result of `get_subscription_info` when the call succeeds. -/
structure SubscriptionData where
  plan_type : Option String := none
  plan_title : Option String := none
  subscription_end : Option Int := none
  deriving DecidableEq, Repr

/-- Result of `get_sora2_invite_code` when the call succeeds. -/
structure Sora2Data where
  supported : Bool := false
  invite_code : Option String := none
  redeemed_count : Nat := 0
  total_count : Nat := 0
  deriving DecidableEq, Repr

/-- The two error outcomes of `add_token`: the duplicate-value conflict
(`ValueError` carrying the existing record's email,
token_manager.py:330-332) and the JWT decode failure (`ValueError` from
`decode_jwt`, token_manager.py:20-26). -/
inductive AddTokenError where
  | conflict (email : String)
  | invalidJwt
  deriving DecidableEq, Repr

/-- `email.split("@")[0]`: the part of the address before the first `@`. -/
def emailLocalPart (s : String) : String :=
  s.takeWhile (fun c => c ≠ '@')

/-- `TokenManager.decode_jwt` (token_manager.py:20-26): the library decode
is external I/O, its outcome enters as `decoded`; a failed decode
(`none`) is re-raised as a `ValueError`. -/
def decode_jwt (decoded : Option JwtClaims) : Except AddTokenError JwtClaims :=
  match decoded with
  | some d => Except.ok d
  | none => Except.error AddTokenError.invalidJwt

/-- `TokenManager.update_existing_token` (token_manager.py:413-464):
re-decode the JWT, re-run the enrichment calls (their outcomes enter as
`Option` arguments; the recomputed email/name are not written back), then
update the stored record in place and return the freshly read record.
The Python raises the `ValueError` of `decode_jwt` out of the call;
errors are returned alongside the unchanged store. -/
def update_existing_token (db : Database) (token_id : Nat) (token_value : String)
    (decoded : Option JwtClaims) (sub_info : Option SubscriptionData)
    (st rt remark : Option String) :
    Except AddTokenError (Option Token) × Database :=
  match decode_jwt decoded with
  | Except.error e => (Except.error e, db)
  | Except.ok d =>
    let expiry_time := d.exp
    let plan_type := match sub_info with | some s => s.plan_type | none => none
    let plan_title := match sub_info with | some s => s.plan_title | none => none
    let subscription_end := match sub_info with | some s => s.subscription_end | none => none
    let db1 := db.update_token token_id (some token_value) st rt remark
                 expiry_time plan_type plan_title subscription_end
    (Except.ok (db1.get_token token_id), db1)

/-- `TokenManager.add_token` (token_manager.py:308-411): reject a
duplicate secret value unless `update_if_exists` (then update in place);
decode the JWT (a failure aborts before any store write); run the three
enrichment calls, each falling back to JWT/defaults when it raised
(`none`); build the record and append it to the store under a fresh id. -/
def add_token (db : Database) (token_value : String)
    (decoded : Option JwtClaims)
    (user_info : Option UserInfo)
    (sub_info : Option SubscriptionData)
    (sora2_info : Option Sora2Data)
    (st rt remark : Option String)
    (update_if_exists : Bool) :
    Except AddTokenError (Option Token) × Database :=
  match db.get_token_by_value token_value with
  | some existing_token =>
      if ! update_if_exists then
        (Except.error (AddTokenError.conflict existing_token.email), db)
      else
        update_existing_token db existing_token.id token_value decoded sub_info st rt remark
  | none =>
    match decode_jwt decoded with
    | Except.error e => (Except.error e, db)
    | Except.ok d =>
      let expiry_time := d.exp
      let jwt_email := d.profile_email
      let email :=
        match user_info with
        | some ui => ui.email.getD (jwt_email.getD "")
        | none => jwt_email.getD ""
      let name :=
        match user_info with
        | some ui => ui.name.getD ""
        | none => if email = "" then "" else emailLocalPart email
      let plan_type := match sub_info with | some s => s.plan_type | none => none
      let plan_title := match sub_info with | some s => s.plan_title | none => none
      let subscription_end := match sub_info with | some s => s.subscription_end | none => none
      let sora2_supported := match sora2_info with | some s => some s.supported | none => none
      let sora2_invite_code := match sora2_info with | some s => s.invite_code | none => none
      let sora2_redeemed_count := match sora2_info with | some s => s.redeemed_count | none => 0
      let sora2_total_count := match sora2_info with | some s => s.total_count | none => 0
      let tok : Token :=
        { id := 0
          token := token_value
          email := email
          name := name
          st := st
          rt := rt
          remark := remark
          expiry_time := expiry_time
          is_active := true
          plan_type := plan_type
          plan_title := plan_title
          subscription_end := subscription_end
          sora2_supported := sora2_supported
          sora2_invite_code := sora2_invite_code
          sora2_redeemed_count := sora2_redeemed_count
          sora2_total_count := sora2_total_count }
      let r := db.add_token_record tok
      (Except.ok (some { tok with id := r.1 }), r.2)

end TokenManager

/-! ### Concrete fixtures used by witnesses and counterexamples -/

/-- A small admin configuration: ban after 3 errors, cool down after 5
videos, configured cooldown duration 1000 s (the code ignores it). -/
def cfgW : AdminConfig :=
  { error_ban_threshold := 3, video_cooldown_threshold := 5, cooldown_duration := 1000 }

/-- An active token with two recorded errors. -/
def tokW : Token := { id := 1, token := "w", error_count := 2 }

/-- Store holding only `tokW`. -/
def dbW : Database := { tokens := [tokW], next_id := 2, admin := cfgW }

/-- `tokW` with a third error already recorded. -/
def tokW3 : Token := { tokW with error_count := 3 }

/-- Store holding only `tokW3`. -/
def dbW3 : Database := { tokens := [tokW3], next_id := 2, admin := cfgW }

/-- An active token with four videos recorded (one below `cfgW`'s
cooldown threshold). -/
def tokV : Token := { id := 1, token := "v", video_count := 4 }

/-- Store holding only `tokV`. -/
def dbV : Database := { tokens := [tokV], next_id := 2, admin := cfgW }

/-- A plain active, unlocked token. -/
def tokA : Token := { id := 1, token := "a" }

/-- Store holding only `tokA`. -/
def dbOne : Database := { tokens := [tokA], next_id := 2, admin := cfgW }

/-- Lock table with no record. -/
def lockNone : TokenLock := { lock_timeout := 600, locks := [] }

/-- Lock table holding token 1, acquired at time 0. -/
def lockTok1 : TokenLock := { lock_timeout := 600, locks := [(1, 0)] }

/-- Second active token, used as the locked credential of the C4 pool. -/
def tokB4 : Token := { id := 2, token := "b" }

/-- Disabled token of the C4 pool. -/
def tokC4 : Token := { id := 3, token := "c", is_active := false }

/-- Pool A: active/unlocked, B: active/locked, C: disabled. -/
def dbABC : Database := { tokens := [tokA, tokB4, tokC4], next_id := 4, admin := cfgW }

/-- Lock table holding token 2 (`tokB4`), acquired at time 0. -/
def lockTok2 : TokenLock := { lock_timeout := 600, locks := [(2, 0)] }

/-- Empty store. -/
def dbNone : Database := { tokens := [], next_id := 1, admin := cfgW }

/-- A decoded bearer token with no claims of interest. -/
def jwtW : TokenManager.JwtClaims := {}

/-! ### Helper lemmas about the store -/

theorem find?_map_pres {α : Type} (p : α → Bool) (g : α → α)
    (hp : ∀ x, p (g x) = p x) (l : List α) :
    (l.map g).find? p = (l.find? p).map g := by
  induction l with
  | nil => rfl
  | cons a l ih =>
      by_cases h : p a = true
      · rw [List.map_cons, List.find?_cons_of_pos _ (by rw [hp]; exact h),
          List.find?_cons_of_pos _ h, Option.map_some']
      · rw [List.map_cons, List.find?_cons_of_neg _ (by rw [hp]; simpa using h),
          List.find?_cons_of_neg _ (by simpa using h), ih]

theorem get_token_modify (db : Database) (token_id : Nat) (f : Token → Token)
    (hf : ∀ t, (f t).id = t.id) :
    (db.modify_token token_id f).get_token token_id =
      (db.get_token token_id).map f := by
  show (db.tokens.map _).find? _ = _
  rw [find?_map_pres _ _ (by intro x; by_cases hx : x.id = token_id <;> simp [hx, hf])]
  unfold Database.get_token
  cases h : db.tokens.find? (fun t => t.id == token_id) with
  | none => rfl
  | some t =>
      have hp := List.find?_some h
      simp only [beq_iff_eq] at hp
      simp [hp]

theorem admin_modify (db : Database) (token_id : Nat) (f : Token → Token) :
    (db.modify_token token_id f).admin = db.admin := rfl

theorem ids_modify (db : Database) (token_id : Nat) (f : Token → Token)
    (hf : ∀ t, (f t).id = t.id) :
    (db.modify_token token_id f).tokens.map Token.id = db.tokens.map Token.id := by
  show (db.tokens.map _).map Token.id = _
  rw [List.map_map]
  exact List.map_congr_left (fun t _ => by by_cases hx : t.id = token_id <;> simp [hx, hf])

theorem mem_of_get_token (db : Database) (token_id : Nat) (t : Token)
    (h : db.get_token token_id = some t) : t ∈ db.tokens :=
  List.mem_of_find?_eq_some h

theorem id_of_get_token (db : Database) (token_id : Nat) (t : Token)
    (h : db.get_token token_id = some t) : t.id = token_id := by
  have := List.find?_some h
  simpa using this

/-! ### C2 -/

/-- C2: for a credential present in the store, `record_error` increments
`error_count` by one and, when the new count reaches the error-ban
threshold read from the (fresh) admin config, sets the status to
inactive; the call is a total function on the store, so it always returns
without raising to the caller. -/
theorem record_error_spec (db : Database) (token_id : Nat) (t : Token)
    (h : db.get_token token_id = some t) :
    (TokenManager.record_error db token_id).get_token token_id =
      some { t with
             error_count := t.error_count + 1
             is_active :=
               if db.admin.error_ban_threshold ≤ t.error_count + 1 then false
               else t.is_active } := by
  have h1 : (db.increment_error_count token_id).get_token token_id =
      some { t with error_count := t.error_count + 1 } := by
    rw [Database.increment_error_count,
      get_token_modify db token_id (fun u => { u with error_count := u.error_count + 1 })
        (fun _ => rfl), h, Option.map_some']
  have hstats : (db.increment_error_count token_id).get_token_stats token_id =
      some { error_count := t.error_count + 1, image_count := t.image_count,
             video_count := t.video_count } := by
    rw [Database.get_token_stats, h1, Option.map_some']
  have h2 : ((db.increment_error_count token_id).update_token_status token_id false).get_token
      token_id = some { t with error_count := t.error_count + 1, is_active := false } := by
    rw [Database.update_token_status,
      get_token_modify _ token_id (fun u => { u with is_active := false }) (fun _ => rfl),
      h1, Option.map_some']
  simp only [TokenManager.record_error, hstats, Database.get_admin_config, ge_iff_le]
  by_cases hth : db.admin.error_ban_threshold ≤ t.error_count + 1
  · rw [if_pos (by exact hth), if_pos hth, h2]
  · rw [if_neg (by exact hth), if_neg hth, h1]

/-- Witness for C2 at a concrete store: token 1 with two prior errors and
threshold 3 is auto-disabled by the third error. -/
theorem record_error_spec_witness :
    dbW.get_token 1 = some tokW ∧
    (TokenManager.record_error dbW 1).get_token 1 =
      some { tokW with
             error_count := tokW.error_count + 1
             is_active :=
               if dbW.admin.error_ban_threshold ≤ tokW.error_count + 1 then false
               else tokW.is_active } :=
  ⟨rfl, record_error_spec dbW 1 tokW rfl⟩

/-! ### C5 -/

/-- C5: `enable_token` sets the status to active and resets `error_count`
to 0, `record_success` resets `error_count` to 0, and the enabled
credential is among the active (selectable) tokens at any time at which
its cooldown, if any, has passed. -/
theorem enable_and_success_reset_error (db : Database) (token_id : Nat) (t : Token)
    (h : db.get_token token_id = some t) :
    ((TokenManager.enable_token db token_id).get_token token_id =
        some { t with is_active := true, error_count := 0 }) ∧
    ((TokenManager.record_success db token_id).get_token token_id =
        some { t with error_count := 0 }) ∧
    (∀ now : Int, t.cooled_until.all (fun c => decide (c ≤ now)) = true →
        { t with is_active := true, error_count := 0 } ∈
          (TokenManager.enable_token db token_id).get_active_tokens now) := by
  have h1 : (db.update_token_status token_id true).get_token token_id =
      some { t with is_active := true } := by
    rw [Database.update_token_status,
      get_token_modify db token_id (fun u => { u with is_active := true }) (fun _ => rfl),
      h, Option.map_some']
  have h2 : (TokenManager.enable_token db token_id).get_token token_id =
      some { t with is_active := true, error_count := 0 } := by
    unfold TokenManager.enable_token
    rw [Database.reset_error_count,
      get_token_modify _ token_id (fun u => { u with error_count := 0 }) (fun _ => rfl),
      h1, Option.map_some']
  refine ⟨h2, ?_, ?_⟩
  · unfold TokenManager.record_success
    rw [Database.reset_error_count,
      get_token_modify db token_id (fun u => { u with error_count := 0 }) (fun _ => rfl),
      h, Option.map_some']
  · intro now hcool
    refine List.mem_filter.mpr ⟨mem_of_get_token _ token_id _ h2, ?_⟩
    show Token.selectable _ now = true
    unfold Token.selectable
    cases hc : t.cooled_until with
    | none => simp [hc]
    | some c =>
        rw [hc] at hcool
        simp only [Option.all_some] at hcool
        simp [hc, hcool]

/-- Witness for C5 at a concrete store: enabling the twice-errored token
1 of `dbW` resets its error count and it reappears among the active
tokens. -/
theorem enable_and_success_reset_error_witness :
    dbW.get_token 1 = some tokW ∧
    (((TokenManager.enable_token dbW 1).get_token 1 =
        some { tokW with is_active := true, error_count := 0 }) ∧
     ((TokenManager.record_success dbW 1).get_token 1 =
        some { tokW with error_count := 0 }) ∧
     (∀ now : Int, tokW.cooled_until.all (fun c => decide (c ≤ now)) = true →
        { tokW with is_active := true, error_count := 0 } ∈
          (TokenManager.enable_token dbW 1).get_active_tokens now)) :=
  ⟨rfl, enable_and_success_reset_error dbW 1 tokW rfl⟩

/-! ### C3 -/

/-- C3 counterexample: in `dbV` (threshold 5, token 1 with 4 videos) the
`record_usage` call that raises `video_count` to the threshold does NOT
set `cooled_until` — the claim that the same `recordUsage` call applies
the cooldown is false; the cooldown is applied only by the separate
`check_and_apply_cooldown`. -/
theorem record_usage_cooldown_cex :
    ((TokenManager.record_usage dbV 1 true).get_token 1).map
        (fun t => (t.video_count, t.cooled_until)) = some (5, none) ∧
    dbV.admin.video_cooldown_threshold = 5 := ⟨rfl, rfl⟩

/-- C3 amended: `record_usage(video)` increments the video counter; the
separate `check_and_apply_cooldown`, reading the stats and the threshold
fresh, then sets `cooled_until = now + 12 hours` (a hard-coded duration);
the credential stays active yet is excluded from the active (selectable)
tokens before that time and is selectable again afterwards. -/
theorem video_cooldown_spec (db : Database) (token_id : Nat) (t : Token) (now : Int)
    (h : db.get_token token_id = some t) (hact : t.is_active = true)
    (hth : db.admin.video_cooldown_threshold ≤ t.video_count + 1) :
    ((TokenManager.record_usage db token_id true).get_token token_id =
        some { t with use_count := t.use_count + 1, video_count := t.video_count + 1 }) ∧
    ((TokenManager.check_and_apply_cooldown
        (TokenManager.record_usage db token_id true) token_id now).get_token token_id =
      some { t with use_count := t.use_count + 1, video_count := t.video_count + 1,
                    cooled_until := some (now + 12 * 3600) }) ∧
    (∀ m : Int, m < now + 12 * 3600 →
      { t with use_count := t.use_count + 1, video_count := t.video_count + 1,
               cooled_until := some (now + 12 * 3600) } ∉
        (TokenManager.check_and_apply_cooldown
          (TokenManager.record_usage db token_id true) token_id now).get_active_tokens m) ∧
    (∀ m : Int, now + 12 * 3600 ≤ m →
      { t with use_count := t.use_count + 1, video_count := t.video_count + 1,
               cooled_until := some (now + 12 * 3600) } ∈
        (TokenManager.check_and_apply_cooldown
          (TokenManager.record_usage db token_id true) token_id now).get_active_tokens m) := by
  have h1 : (TokenManager.record_usage db token_id true).get_token token_id =
      some { t with use_count := t.use_count + 1, video_count := t.video_count + 1 } := by
    simp only [TokenManager.record_usage, if_true]
    rw [Database.increment_video_count,
      get_token_modify _ token_id (fun u => { u with video_count := u.video_count + 1 })
        (fun _ => rfl),
      Database.update_token_usage,
      get_token_modify db token_id (fun u => { u with use_count := u.use_count + 1 })
        (fun _ => rfl),
      h, Option.map_some', Option.map_some']
  have hstats : (TokenManager.record_usage db token_id true).get_token_stats token_id =
      some { error_count := t.error_count, image_count := t.image_count,
             video_count := t.video_count + 1 } := by
    rw [Database.get_token_stats, h1, Option.map_some']
  have hadm : (TokenManager.record_usage db token_id true).get_admin_config = db.admin := by
    simp only [TokenManager.record_usage, if_true]
    rfl
  have h2 : (TokenManager.check_and_apply_cooldown
      (TokenManager.record_usage db token_id true) token_id now).get_token token_id =
      some { t with use_count := t.use_count + 1, video_count := t.video_count + 1,
                    cooled_until := some (now + 12 * 3600) } := by
    simp only [TokenManager.check_and_apply_cooldown, hstats, hadm, ge_iff_le]
    rw [if_pos hth]
    rw [Database.update_token_cooldown,
      get_token_modify _ token_id (fun u => { u with cooled_until := some (now + 12 * 3600) })
        (fun _ => rfl),
      h1, Option.map_some']
  refine ⟨h1, h2, ?_, ?_⟩
  · intro m hm hmem
    have hp := (List.mem_filter.mp hmem).2
    unfold Token.selectable at hp
    simp only [Bool.and_eq_true, decide_eq_true_eq] at hp
    omega
  · intro m hm
    refine List.mem_filter.mpr ⟨mem_of_get_token _ token_id _ h2, ?_⟩
    show Token.selectable _ m = true
    unfold Token.selectable
    simp only [hact, Bool.true_and, decide_eq_true_eq]
    omega

/-- Witness for C3 (amended) at a concrete store: the fifth video on
token 1 of `dbV`, once `check_and_apply_cooldown` runs at time 0, sets
`cooled_until = 43200`. -/
theorem video_cooldown_spec_witness :
    dbV.get_token 1 = some tokV ∧ tokV.is_active = true ∧
    dbV.admin.video_cooldown_threshold ≤ tokV.video_count + 1 ∧
    (((TokenManager.record_usage dbV 1 true).get_token 1 =
        some { tokV with use_count := tokV.use_count + 1,
                         video_count := tokV.video_count + 1 }) ∧
     ((TokenManager.check_and_apply_cooldown
         (TokenManager.record_usage dbV 1 true) 1 0).get_token 1 =
       some { tokV with use_count := tokV.use_count + 1,
                        video_count := tokV.video_count + 1,
                        cooled_until := some (0 + 12 * 3600) }) ∧
     (∀ m : Int, m < 0 + 12 * 3600 →
       { tokV with use_count := tokV.use_count + 1, video_count := tokV.video_count + 1,
                   cooled_until := some (0 + 12 * 3600) } ∉
         (TokenManager.check_and_apply_cooldown
           (TokenManager.record_usage dbV 1 true) 1 0).get_active_tokens m) ∧
     (∀ m : Int, 0 + 12 * 3600 ≤ m →
       { tokV with use_count := tokV.use_count + 1, video_count := tokV.video_count + 1,
                   cooled_until := some (0 + 12 * 3600) } ∈
         (TokenManager.check_and_apply_cooldown
           (TokenManager.record_usage dbV 1 true) 1 0).get_active_tokens m)) :=
  ⟨rfl, rfl, by decide, video_cooldown_spec dbV 1 tokV 0 rfl rfl (by decide)⟩

/-! ### C7 -/

/-- C7 counterexample: the store after the third error auto-disables
token 1 of `dbW` is byte-for-byte equal to the store after a manual
`disable_token` on `dbW3`, whose token already carried three errors — no
stored status/reason field distinguishes an auto-disabled credential from
a manually disabled one. -/
theorem auto_disable_indistinguishable_cex :
    TokenManager.record_error dbW 1 = TokenManager.disable_token dbW3 1 ∧
    dbW.admin.error_ban_threshold = 3 ∧
    tokW.error_count = 2 ∧ tokW3 = { tokW with error_count := 3 } := by
  refine ⟨?_, rfl, rfl, rfl⟩
  rfl

/-- C7 amended: the automatic disable of `record_error` at the threshold
is exactly the manual `disable_token` transition applied to the store
with the incremented error count, and it is observable through subsequent
status reads (the stored status becomes inactive); no stored field
distinguishes it from a manual disable. -/
theorem auto_disable_is_manual_disable (db : Database) (token_id : Nat) (t : Token)
    (h : db.get_token token_id = some t)
    (hth : db.admin.error_ban_threshold ≤ t.error_count + 1) :
    TokenManager.record_error db token_id =
      TokenManager.disable_token (db.increment_error_count token_id) token_id ∧
    ((TokenManager.record_error db token_id).get_token token_id).map Token.is_active =
      some false := by
  have h1 : (db.increment_error_count token_id).get_token token_id =
      some { t with error_count := t.error_count + 1 } := by
    rw [Database.increment_error_count,
      get_token_modify db token_id (fun u => { u with error_count := u.error_count + 1 })
        (fun _ => rfl), h, Option.map_some']
  have hstats : (db.increment_error_count token_id).get_token_stats token_id =
      some { error_count := t.error_count + 1, image_count := t.image_count,
             video_count := t.video_count } := by
    rw [Database.get_token_stats, h1, Option.map_some']
  have heq : TokenManager.record_error db token_id =
      TokenManager.disable_token (db.increment_error_count token_id) token_id := by
    have hadm : (db.increment_error_count token_id).admin.error_ban_threshold ≤
        t.error_count + 1 := hth
    simp only [TokenManager.record_error, hstats, Database.get_admin_config, ge_iff_le]
    rw [if_pos hadm]
    rfl
  refine ⟨heq, ?_⟩
  rw [heq]
  unfold TokenManager.disable_token
  rw [Database.update_token_status,
    get_token_modify _ token_id (fun u => { u with is_active := false }) (fun _ => rfl),
    h1, Option.map_some', Option.map_some']

/-- Witness for C7 (amended) at a concrete store: the third error on
token 1 of `dbW` equals a manual disable of the incremented store and
leaves the status readable as inactive. -/
theorem auto_disable_is_manual_disable_witness :
    dbW.get_token 1 = some tokW ∧
    dbW.admin.error_ban_threshold ≤ tokW.error_count + 1 ∧
    (TokenManager.record_error dbW 1 =
       TokenManager.disable_token (dbW.increment_error_count 1) 1 ∧
     ((TokenManager.record_error dbW 1).get_token 1).map Token.is_active = some false) :=
  ⟨rfl, by decide, auto_disable_is_manual_disable dbW 1 tokW rfl (by decide)⟩

/-! ### Selection lemmas shared by C4 and C6 -/

theorem select_token_mem (db : Database) (tl : TokenLock) (now : Int)
    (b : Bool) (pick : Nat) (t : Token)
    (h : LoadBalancer.select_token db tl now b pick = some t) :
    t ∈ db.get_active_tokens now ∧ (b = true → tl.is_locked now t.id = false) := by
  unfold LoadBalancer.select_token at h
  by_cases he : (db.get_active_tokens now).isEmpty = true
  · rw [if_pos he] at h
    cases h
  · rw [if_neg he] at h
    cases b with
    | true =>
        rw [if_pos rfl] at h
        by_cases ha : ((db.get_active_tokens now).filter
            (fun u => ! tl.is_locked now u.id)).isEmpty = true
        · rw [if_pos ha] at h
          cases h
        · rw [if_neg ha] at h
          have hmem := List.get?_mem h
          have hsp := List.mem_filter.mp hmem
          refine ⟨hsp.1, fun _ => ?_⟩
          simpa using hsp.2
    | false =>
        rw [if_neg (by simp)] at h
        exact ⟨List.get?_mem h, fun hb => by cases hb⟩

theorem get?_pick_exists {α : Type} (l : List α) (a : α) (h : a ∈ l) :
    ∃ pick, l.get? (pick % l.length) = some a := by
  obtain ⟨n, hn⟩ := List.get?_of_mem h
  have hlt : n < l.length := (List.get?_eq_some.mp hn).1
  exact ⟨n, by rw [Nat.mod_eq_of_lt hlt]; exact hn⟩

/-! ### C4 -/

/-- C4: a credential holding a non-expired image-generation lock is never
a possible result of `select_token` for image generation but, when among
the active tokens, remains a possible result for video; a disabled
credential is never a possible result for any request class. -/
theorem select_lock_and_disable_filtering (db : Database) (tl : TokenLock) (now : Int)
    (tB tC : Token)
    (hB : tl.is_locked now tB.id = true)
    (hC : tC.is_active = false) :
    (∀ pick, LoadBalancer.select_token db tl now true pick ≠ some tB) ∧
    (tB ∈ db.get_active_tokens now →
      ∃ pick, LoadBalancer.select_token db tl now false pick = some tB) ∧
    (∀ b pick, LoadBalancer.select_token db tl now b pick ≠ some tC) := by
  refine ⟨?_, ?_, ?_⟩
  · intro pick hEq
    have hfree := (select_token_mem db tl now true pick tB hEq).2 rfl
    rw [hB] at hfree
    cases hfree
  · intro hmem
    obtain ⟨pick, hp⟩ := get?_pick_exists _ tB hmem
    refine ⟨pick, ?_⟩
    unfold LoadBalancer.select_token
    rw [if_neg (by simp only [List.isEmpty_iff]; exact fun hnil =>
          (List.ne_nil_of_mem hmem) hnil)]
    rw [if_neg (by simp)]
    exact hp
  · intro b pick hEq
    have hmem := (select_token_mem db tl now b pick tC hEq).1
    unfold Database.get_active_tokens at hmem
    have hsel := (List.mem_filter.mp hmem).2
    unfold Token.selectable at hsel
    simp only [Bool.and_eq_true] at hsel
    rw [hC] at hsel
    cases hsel.1

/-- Witness for C4 on the spec's scenario pool: A active/unlocked, B
active/locked for image, C disabled. -/
theorem select_lock_and_disable_filtering_witness :
    lockTok2.is_locked 0 tokB4.id = true ∧ tokC4.is_active = false ∧
    ((∀ pick, LoadBalancer.select_token dbABC lockTok2 0 true pick ≠ some tokB4) ∧
     (tokB4 ∈ dbABC.get_active_tokens 0 →
       ∃ pick, LoadBalancer.select_token dbABC lockTok2 0 false pick = some tokB4) ∧
     (∀ b pick, LoadBalancer.select_token dbABC lockTok2 0 b pick ≠ some tokC4)) :=
  ⟨by decide, rfl,
   select_lock_and_disable_filtering dbABC lockTok2 0 tokB4 tokC4 (by decide) rfl⟩

/-! ### C6 -/

/-- C6: when no eligible credential exists, `select_token` returns `none`
(a value, not an exception): both when there is no active token at all
and when every active token is filtered out by the image-generation lock
check. -/
theorem select_exhausted_none (db : Database) (tl : TokenLock) (now : Int) :
    (db.get_active_tokens now = [] →
      ∀ b pick, LoadBalancer.select_token db tl now b pick = none) ∧
    ((∀ t ∈ db.get_active_tokens now, tl.is_locked now t.id = true) →
      ∀ pick, LoadBalancer.select_token db tl now true pick = none) := by
  constructor
  · intro h b pick
    unfold LoadBalancer.select_token
    rw [if_pos (by simp [h])]
  · intro h pick
    unfold LoadBalancer.select_token
    by_cases he : (db.get_active_tokens now).isEmpty = true
    · rw [if_pos he]
    · rw [if_neg he, if_pos rfl]
      have hfil : (db.get_active_tokens now).filter (fun u => ! tl.is_locked now u.id) = [] :=
        List.filter_eq_nil_iff.mpr (fun a ha => by simp [h a ha])
      rw [if_pos (by simp [hfil])]

/-- Witness for C6: the empty pool returns `none` for any class and pick,
and so does a pool whose only active token is image-locked. -/
theorem select_exhausted_none_witness :
    (dbNone.get_active_tokens 0 = [] ∧
      ∀ b pick, LoadBalancer.select_token dbNone lockNone 0 b pick = none) ∧
    ((∀ t ∈ dbOne.get_active_tokens 0, lockTok1.is_locked 0 t.id = true) ∧
      ∀ pick, LoadBalancer.select_token dbOne lockTok1 0 true pick = none) :=
  ⟨⟨rfl, (select_exhausted_none dbNone lockNone 0).1 rfl⟩,
   ⟨by decide, (select_exhausted_none dbOne lockTok1 0).2 (by decide)⟩⟩

/-! ### C1 -/

/-- C1: the code has no atomic select-and-lock. `select_token` only
filters on `is_locked` and returns the chosen token without acquiring any
lock (its result carries no updated lock state), so at the concrete pool
`dbOne` with the single unlocked token `tokA` two invocations at the same
state — the two concurrent callers of the claim — both obtain `tokA`
while it is still unlocked. -/
theorem select_token_toctou_bug :
    lockNone.is_locked 0 tokA.id = false ∧
    LoadBalancer.select_token dbOne lockNone 0 true 0 = some tokA ∧
    LoadBalancer.select_token dbOne lockNone 0 true 1 = some tokA :=
  ⟨rfl, rfl, rfl⟩

/-! ### C8 -/

/-- C8: adding a credential whose secret value already exists surfaces a
conflict error to the caller and leaves the store untouched; with the
update option chosen, the existing record is updated in place — the
stored ids and the fresh-id counter are unchanged (no duplicate is
created) and the record under the existing id now carries the supplied
secret value. -/
theorem add_token_conflict_spec (db : Database) (v : String) (existing : Token)
    (d : TokenManager.JwtClaims) (ui : Option TokenManager.UserInfo)
    (si : Option TokenManager.SubscriptionData) (s2 : Option TokenManager.Sora2Data)
    (st rt remark : Option String)
    (h : db.get_token_by_value v = some existing) :
    (TokenManager.add_token db v (some d) ui si s2 st rt remark false =
      (Except.error (TokenManager.AddTokenError.conflict existing.email), db)) ∧
    ((TokenManager.add_token db v (some d) ui si s2 st rt remark true).2.tokens.map Token.id
      = db.tokens.map Token.id) ∧
    ((TokenManager.add_token db v (some d) ui si s2 st rt remark true).2.next_id
      = db.next_id) ∧
    (∃ u, (TokenManager.add_token db v (some d) ui si s2 st rt remark true).2.get_token
        existing.id = some u ∧ u.token = v) := by
  have hupd : (TokenManager.add_token db v (some d) ui si s2 st rt remark true).2 =
      db.update_token existing.id (some v) st rt remark d.exp
        (match si with | some s => s.plan_type | none => none)
        (match si with | some s => s.plan_title | none => none)
        (match si with | some s => s.subscription_end | none => none) := by
    simp only [TokenManager.add_token, h, TokenManager.update_existing_token,
      TokenManager.decode_jwt]
    rfl
  have habort : TokenManager.add_token db v (some d) ui si s2 st rt remark false =
      (Except.error (TokenManager.AddTokenError.conflict existing.email), db) := by
    simp only [TokenManager.add_token, h]
    rfl
  have hsome : ∃ u0, db.get_token existing.id = some u0 := by
    have hmem : existing ∈ db.tokens := List.mem_of_find?_eq_some h
    have : (db.tokens.find? (fun t => t.id == existing.id)).isSome :=
      List.find?_isSome.mpr ⟨existing, hmem, by simp⟩
    obtain ⟨u0, hu0⟩ := Option.isSome_iff_exists.mp this
    exact ⟨u0, hu0⟩
  obtain ⟨u0, hu0⟩ := hsome
  refine ⟨habort, ?_, ?_, ?_⟩
  · rw [hupd, Database.update_token]
    exact ids_modify _ _ _ (fun _ => rfl)
  · rw [hupd]
    rfl
  · rw [hupd, Database.update_token, get_token_modify]
    · rw [hu0, Option.map_some']
      exact ⟨_, rfl, rfl⟩
    · intro t
      rfl

/-- Witness for C8: re-adding `tokA`'s secret value to `dbOne` errors
without the update option and updates record 1 in place with it. -/
theorem add_token_conflict_spec_witness :
    dbOne.get_token_by_value "a" = some tokA ∧
    ((TokenManager.add_token dbOne "a" (some jwtW) none none none none none none false =
       (Except.error (TokenManager.AddTokenError.conflict tokA.email), dbOne)) ∧
     ((TokenManager.add_token dbOne "a" (some jwtW) none none none none none none
        true).2.tokens.map Token.id = dbOne.tokens.map Token.id) ∧
     ((TokenManager.add_token dbOne "a" (some jwtW) none none none none none none
        true).2.next_id = dbOne.next_id) ∧
     (∃ u, (TokenManager.add_token dbOne "a" (some jwtW) none none none none none none
        true).2.get_token tokA.id = some u ∧ u.token = "a")) :=
  ⟨rfl, add_token_conflict_spec dbOne "a" tokA jwtW none none none none none none rfl⟩

/-! ### C9 -/

/-- C9: whatever the outcomes of the three enrichment calls — including
all of them failing (`none`) — admission of a new, decodable credential
succeeds and appends the record to the store as an active token carrying
the supplied secret value; an enrichment failure is never a reason to
reject the credential. -/
theorem add_token_enrichment_fallback (db : Database) (v : String)
    (d : TokenManager.JwtClaims) (ui : Option TokenManager.UserInfo)
    (si : Option TokenManager.SubscriptionData) (s2 : Option TokenManager.Sora2Data)
    (st rt remark : Option String) (uie : Bool)
    (hnew : db.get_token_by_value v = none) :
    ∃ tok, TokenManager.add_token db v (some d) ui si s2 st rt remark uie =
        (Except.ok (some tok),
         { db with tokens := db.tokens ++ [tok], next_id := db.next_id + 1 }) ∧
      tok.token = v ∧ tok.id = db.next_id ∧ tok.is_active = true := by
  simp only [TokenManager.add_token, hnew, TokenManager.decode_jwt,
    Database.add_token_record]
  exact ⟨_, rfl, rfl, rfl, rfl⟩

/-- Witness for C9: a fresh secret value is admitted into the empty store
with every enrichment call failed. -/
theorem add_token_enrichment_fallback_witness :
    dbNone.get_token_by_value "n" = none ∧
    ∃ tok, TokenManager.add_token dbNone "n" (some jwtW) none none none none none none false =
        (Except.ok (some tok),
         { dbNone with tokens := dbNone.tokens ++ [tok], next_id := dbNone.next_id + 1 }) ∧
      tok.token = "n" ∧ tok.id = dbNone.next_id ∧ tok.is_active = true :=
  ⟨rfl, add_token_enrichment_fallback dbNone "n" jwtW none none none none none none false rfl⟩

/-! ### C10 -/

/-- C10: admission of a new credential whose secret value does not decode
as a JWT returns the `ValueError` of `decode_jwt` and leaves the store
exactly as it was — nothing is written, so stored credentials were all
decodable at admission time. -/
theorem add_token_invalid_jwt_spec (db : Database) (v : String)
    (ui : Option TokenManager.UserInfo) (si : Option TokenManager.SubscriptionData)
    (s2 : Option TokenManager.Sora2Data) (st rt remark : Option String) (uie : Bool)
    (hnew : db.get_token_by_value v = none) :
    TokenManager.add_token db v none ui si s2 st rt remark uie =
      (Except.error TokenManager.AddTokenError.invalidJwt, db) := by
  simp only [TokenManager.add_token, hnew, TokenManager.decode_jwt]

/-- Witness for C10: an undecodable secret value is rejected by the empty
store, which stays empty. -/
theorem add_token_invalid_jwt_spec_witness :
    dbNone.get_token_by_value "x" = none ∧
    TokenManager.add_token dbNone "x" none none none none none none none false =
      (Except.error TokenManager.AddTokenError.invalidJwt, dbNone) :=
  ⟨rfl, add_token_invalid_jwt_spec dbNone "x" none none none none none none false rfl⟩

end Sora2api
